import Mathlib

/-!
Shallow embedding of the core of `ftxusderivatives-python`:
the LedgerX websocket client (`websocket_lx/client.py`) and its connection
manager (`websocket_lx/websocket_manager.py`).

Conventions of the embedding:
* Python `dict` / `defaultdict` containers become total functions out of the
  key type (the defaultdict default is the value installed by `_reset_data`);
  JSON objects arriving on the wire become association lists.
* Python floats are modelled by `ℚ` (all arithmetic in the source is exact
  decimal scaling, no rounding is involved).
* Python sets are modelled by duplicate-free lists: `set.add` inserts only
  when absent, `set.remove` raises `KeyError` when absent.
* Wall-clock reads (`time.time()`, `time.time_ns()`) become explicit `now`
  parameters threaded into the handlers that call them.
* Exceptions become `Except` / an error component in the result.
-/

/-- State cache of `LxWebsocketClient` (its mutable attributes). -/
structure ClientState where
  subscriptions : List ℤ
  orderbookTimestamps : ℤ → ℚ
  bookTops : ℤ → List ℚ
  openPositions : ℤ → List (String × ℤ)
  accountBalances : String → List (String × Option ℚ)
  lastHeartbeatTimestamp : ℕ
  initialOpenOrderCount : ℕ

/-- Pointwise update of a function modelling a Python dict write `d[k] = v`. -/
def updFun {α β : Type} [DecidableEq α] (f : α → β) (k : α) (v : β) : α → β :=
  fun x => if x = k then v else f x

/-- One entry of an `open_positions_update` payload: the `contract_id` field
plus the remaining position fields (which stay attached after
`del position['contract_id']`). -/
structure PositionEntry where
  contract_id : ℤ
  fields : List (String × ℤ)

/-- A decoded inbound JSON frame: the optional `type` discriminator and the
payload fields each handler reads.  Frames of a given kind carry the fields
listed for that kind in the wire format. -/
structure Message where
  type? : Option String
  contract_id : ℤ
  bid : ℚ
  bid_size : ℚ
  ask : ℚ
  ask_size : ℚ
  positions : List PositionEntry
  collateral : List (String × List (String × ℚ))
  state_manifest_open_order_count : ℕ

/-- `LxWebsocketClient._reset_data`: reinstalls every cache container fresh
(empty subscription set, all-zero defaults, zero heartbeat).
`_initial_open_order_count` is not touched by `_reset_data`. -/
def reset_data (s : ClientState) : ClientState :=
  { subscriptions := []
    orderbookTimestamps := fun _ => 0
    bookTops := fun _ => [0, 0, 0, 0]
    openPositions := fun _ => []
    accountBalances := fun _ => []
    lastHeartbeatTimestamp := 0
    initialOpenOrderCount := s.initialOpenOrderCount }

/-- The state right after `LxWebsocketClient.__init__` (which calls
`_reset_data` on a fresh object). -/
def initialState : ClientState :=
  { subscriptions := []
    orderbookTimestamps := fun _ => 0
    bookTops := fun _ => [0, 0, 0, 0]
    openPositions := fun _ => []
    accountBalances := fun _ => []
    lastHeartbeatTimestamp := 0
    initialOpenOrderCount := 0 }

/-- `LxWebsocketClient.subscribe`: `self._subscriptions.add(contract_id)`.
Python `set.add` inserts the element only when it is not already a member. -/
def subscribe (cid : ℤ) (s : ClientState) : ClientState :=
  { s with subscriptions :=
      if cid ∈ s.subscriptions then s.subscriptions else cid :: s.subscriptions }

/-- `LxWebsocketClient.unsubscribe`: `self._subscriptions.remove(contract_id)`.
Python `set.remove` raises `KeyError` when the element is absent; the raised
exception propagates synchronously to the caller and the set is unchanged. -/
def unsubscribe (cid : ℤ) (s : ClientState) : Except String ClientState :=
  if cid ∈ s.subscriptions then
    Except.ok { s with subscriptions := s.subscriptions.erase cid }
  else
    Except.error "KeyError"

/-- `LxWebsocketClient.get_book_top`. -/
def get_book_top (s : ClientState) (cid : ℤ) : List ℚ :=
  s.bookTops cid

/-- `LxWebsocketClient.get_book_timestamp`. -/
def get_book_timestamp (s : ClientState) (cid : ℤ) : ℚ :=
  s.orderbookTimestamps cid

/-- `LxWebsocketClient.get_account_balances`. -/
def get_account_balances (s : ClientState) : String → List (String × Option ℚ) :=
  s.accountBalances

/-- `LxWebsocketClient.get_last_heartbeat_timestamp`. -/
def get_last_heartbeat_timestamp (s : ClientState) : ℕ :=
  s.lastHeartbeatTimestamp

/-- `LxWebsocketClient._handle_state_manifest_message`. -/
def handle_state_manifest_message (m : Message) (s : ClientState) : ClientState :=
  { s with initialOpenOrderCount := m.state_manifest_open_order_count }

/-- `LxWebsocketClient._handle_open_positions_update_message`: for each entry,
key by its `contract_id` (deleted from the entry) and overwrite that
instrument's open position. -/
def handle_open_positions_update_message (m : Message) (s : ClientState) : ClientState :=
  { s with openPositions :=
      m.positions.foldl (fun op p => updFun op p.contract_id p.fields) s.openPositions }

/-- The inner `convert_units` of `_handle_collateral_balance_message`:
cents→USD, satoshi→BTC/CBTC, gwei→ETH; any other symbol falls off the end of
the `if`/`elif` chain, so Python implicitly returns `None`. -/
def convert_units (symbol : String) (value : ℚ) : Option ℚ :=
  if symbol = "USD" then some (value / 100)
  else if symbol = "BTC" ∨ symbol = "CBTC" then some (value / 10 ^ 8)
  else if symbol = "ETH" then some (value / 10 ^ 9)
  else none

/-- `LxWebsocketClient._handle_collateral_balance_message`: for each account
key of the payload's `collateral` map, overwrite that account's balances with
the unit-converted per-symbol mapping. -/
def handle_collateral_balance_message (m : Message) (s : ClientState) : ClientState :=
  { s with accountBalances :=
      (m.collateral.foldl
        (fun ab kv =>
          updFun ab kv.1 (kv.2.map (fun sv => (sv.1, convert_units sv.1 sv.2))))
        s.accountBalances) }

/-- `LxWebsocketClient._handle_book_top_message`; `now` is the value read from
`time.time()`. Prices are converted from cents to dollars, sizes are stored
unchanged. -/
def handle_book_top_message (now : ℚ) (m : Message) (s : ClientState) : ClientState :=
  { s with
      bookTops := updFun s.bookTops m.contract_id
        [m.bid / 100, m.bid_size, m.ask / 100, m.ask_size]
      orderbookTimestamps := updFun s.orderbookTimestamps m.contract_id now }

/-- `LxWebsocketClient._handle_heartbeat_message`; `nowNs` is the value read
from `time.time_ns()`. -/
def handle_heartbeat_message (nowNs : ℕ) (s : ClientState) : ClientState :=
  { s with lastHeartbeatTimestamp := nowNs }

/-- `LxWebsocketClient._on_message` after a successful `json.loads`: return
early when the `type` key is absent, otherwise run the sequential chain of
`if message_type == ...` dispatch checks of the source. -/
def on_message (now : ℚ) (nowNs : ℕ) (m : Message) (s : ClientState) : ClientState :=
  match m.type? with
  | none => s
  | some message_type =>
    let s := if message_type = "state_manifest" then handle_state_manifest_message m s else s
    let s := if message_type = "open_positions_update" then handle_open_positions_update_message m s else s
    let s := if message_type = "collateral_balance_update" then handle_collateral_balance_message m s else s
    let s := if message_type = "book_top" then
        (if m.contract_id ∈ s.subscriptions then handle_book_top_message now m s else s)
      else s
    let s := if message_type = "heartbeat" then handle_heartbeat_message nowNs s else s
    s

/-- The spec's example book_top frame:
`{"type":"book_top","contract_id":7,"bid":10050,"bid_size":3,"ask":10100,"ask_size":2}`. -/
def bookTopExampleMsg : Message :=
  { type? := some "book_top", contract_id := 7, bid := 10050, bid_size := 3,
    ask := 10100, ask_size := 2, positions := [], collateral := [],
    state_manifest_open_order_count := 0 }

/-- A frame with a discriminator outside the five recognized kinds. -/
def unknownTypeExampleMsg : Message :=
  { type? := some "auth_success", contract_id := 0, bid := 0, bid_size := 0,
    ask := 0, ask_size := 0, positions := [], collateral := [],
    state_manifest_open_order_count := 0 }

/-- A heartbeat frame. -/
def heartbeatExampleMsg : Message :=
  { type? := some "heartbeat", contract_id := 0, bid := 0, bid_size := 0,
    ask := 0, ask_size := 0, positions := [], collateral := [],
    state_manifest_open_order_count := 0 }

/-- The spec's example collateral update `{"acct1": {"USD": 12345}}`. -/
def collateralExampleMsg : Message :=
  { type? := some "collateral_balance_update", contract_id := 0, bid := 0, bid_size := 0,
    ask := 0, ask_size := 0, positions := [],
    collateral := [("acct1", [("USD", 12345)])],
    state_manifest_open_order_count := 0 }

/-- A collateral update carrying the unrecognized symbol `DOGE` among a
recognized symbol in the same account and a second account. -/
def unknownSymbolExampleMsg : Message :=
  { type? := some "collateral_balance_update", contract_id := 0, bid := 0, bid_size := 0,
    ask := 0, ask_size := 0, positions := [],
    collateral := [("acct1", [("USD", 12345), ("DOGE", 5)]), ("acct2", [("BTC", 1)])],
    state_manifest_open_order_count := 0 }

/-- A call made by the caller against the subscription set. -/
inductive SubOp where
  | sub (cid : ℤ)
  | unsub (cid : ℤ)

/-- One subscribe/unsubscribe call; the `KeyError` a failed `unsubscribe`
raises propagates to the caller, leaving the set as it was. -/
def applySubOp (op : SubOp) (s : ClientState) : ClientState :=
  match op with
  | SubOp.sub cid => subscribe cid s
  | SubOp.unsub cid =>
    match unsubscribe cid s with
    | Except.ok s' => s'
    | Except.error _ => s

/-- Runs a finite sequence of subscribe/unsubscribe calls. -/
def runSubOps (ops : List SubOp) (s : ClientState) : ClientState :=
  ops.foldl (fun s op => applySubOp op s) s

/-- The transport-level callback slots filled in by `WebsocketManager._connect`
when it constructs the `WebSocketApp`: wrapped message, close and error
callbacks are passed; no `on_open` argument is given, so the app's on-open
slot keeps its `None` default. -/
structure RegisteredCallbacks where
  hasOnMessage : Bool
  hasOnClose : Bool
  hasOnError : Bool
  onOpen? : Option (ClientState → ClientState)

/-- The callbacks actually registered by `WebsocketManager._connect`. -/
def connectRegisteredCallbacks : RegisteredCallbacks :=
  { hasOnMessage := true, hasOnClose := true, hasOnError := true, onOpen? := none }

/-- `LxWebsocketClient._on_open`: the client's on-open hook, which resets the
whole state cache via `_reset_data`. -/
def client_on_open (s : ClientState) : ClientState :=
  reset_data s

/-- What the transport does at a successful establishment: invoke the
registered on-open callback if one was set, otherwise do nothing. -/
def runOnOpen (cbs : RegisteredCallbacks) (s : ClientState) : ClientState :=
  match cbs.onOpen? with
  | some f => f s
  | none => s

/-- A client that subscribed to contract 7 and saw its book top during the
previous session, as it stands when a connection is next established. -/
def staleSessionState : ClientState :=
  on_message 17 0 bookTopExampleMsg (subscribe 7 initialState)

/-- An action on the manager performed by `_reconnect` or its callers. -/
inductive MgrEv where
  | discardHandle (h : ℕ)
  | closeHandle (h : ℕ)
  | connectCall
deriving DecidableEq, BEq

/-- Python truthiness of the close callback's status code (`if code:`):
`None` and `0` are falsy, any other integer is truthy. -/
def pyTruthy (code : Option ℕ) : Bool :=
  match code with
  | none => false
  | some c => c != 0

/-- `WebsocketManager._reconnect`: if the callback's ws is still the current
handle, discard it (`self.ws = None`), close it and invoke `connect()` again;
for a superseded handle, do nothing. -/
def reconnectTrace (cur : Option ℕ) (ws : ℕ) : List MgrEv :=
  if cur = some ws then [MgrEv.discardHandle ws, MgrEv.closeHandle ws, MgrEv.connectCall]
  else []

/-- `WebsocketManager._on_close`: reconnect only when a truthy error code was
delivered with the close. -/
def on_close_trace (cur : Option ℕ) (ws : ℕ) (code : Option ℕ) : List MgrEv :=
  if pyTruthy code then reconnectTrace cur ws else []

/-- `WebsocketManager._on_error`: always reconnect. -/
def on_error_trace (cur : Option ℕ) (ws : ℕ) : List MgrEv :=
  reconnectTrace cur ws

/-- An event of a `connect()` run: taking/releasing `self.connect_lock` and
the individual `_connect` establishment attempts. -/
inductive ConnEv where
  | lockAcquire
  | attemptMade (ok : Bool)
  | lockRelease
deriving DecidableEq

/-- `WebsocketManager._CONNECT_TIMEOUT_S`. -/
def CONNECT_TIMEOUT_S : ℚ := 5

/-- One `_connect` establishment attempt, given the instant (relative to the
attempt's start) at which the transport would report connected, or `none` if
it never would: the attempt succeeds iff that instant is within the fixed
timeout; otherwise the wait loop abandons it (`self.ws = None`). -/
def attemptSucceeds (ready : Option ℚ) : Bool :=
  match ready with
  | some t => decide (t ≤ CONNECT_TIMEOUT_S)
  | none => false

/-- `connect`'s `while not self.ws` loop over the ready times of successive
establishment attempts: run attempts until one succeeds, recording each;
the Boolean reports whether a success was reached within the given attempts. -/
def connectLoopTrace (readies : List (Option ℚ)) : List ConnEv × Bool :=
  match readies with
  | [] => ([], false)
  | r :: rest =>
    if attemptSucceeds r then ([ConnEv.attemptMade true], true)
    else
      let p := connectLoopTrace rest
      (ConnEv.attemptMade false :: p.1, p.2)

/-- `WebsocketManager.connect`: return at once when a handle already exists;
otherwise hold `self.connect_lock` and loop `_connect` until an attempt
succeeds.  `readies` lists the ready times of the successive attempts the
environment offers; a `none` first component of the result means the loop is
still running (and the lock still held) after consuming them all. -/
def connect (ws : Option ℕ) (newHandle : ℕ) (readies : List (Option ℚ)) :
    Option ℕ × List ConnEv :=
  match ws with
  | some h => (some h, [])
  | none =>
    let p := connectLoopTrace readies
    ((if p.2 then some newHandle else none),
      ConnEv.lockAcquire :: p.1 ++ (if p.2 then [ConnEv.lockRelease] else []))

/-- A raw wire frame: either it decodes to a message, or `json.loads` rejects
it, raising a decode error that names the offending text. -/
inductive Raw where
  | valid (m : Message)
  | invalid (err : String)

/-- `_on_message` as invoked through `WebsocketManager._wrap_callback`:
a callback for a superseded ws is suppressed; on the current ws, the decode
failure raised by `json.loads` — the first statement of `_on_message`, before
any cache container is touched — is caught by the wrapper and re-raised as
`Error running websocket callback: ...`. The result is the object state after
the call plus the error the wrapper raises, if any. -/
def wrapped_on_message (cur : Option ℕ) (ws : ℕ) (now : ℚ) (nowNs : ℕ)
    (raw : Raw) (s : ClientState) : ClientState × Option String :=
  if cur = some ws then
    match raw with
    | Raw.invalid err => (s, some ("Error running websocket callback: " ++ err))
    | Raw.valid m => (on_message now nowNs m s, none)
  else (s, none)

section DispatchLemmas

lemma on_message_no_type (now : ℚ) (nowNs : ℕ) (m : Message) (s : ClientState)
    (h : m.type? = none) : on_message now nowNs m s = s := by
  unfold on_message
  rw [h]

lemma on_message_unknown_type (now : ℚ) (nowNs : ℕ) (m : Message) (s : ClientState)
    (t : String) (h : m.type? = some t)
    (h1 : t ≠ "state_manifest") (h2 : t ≠ "open_positions_update")
    (h3 : t ≠ "collateral_balance_update") (h4 : t ≠ "book_top")
    (h5 : t ≠ "heartbeat") : on_message now nowNs m s = s := by
  unfold on_message
  rw [h]
  simp only [if_neg h1, if_neg h2, if_neg h3, if_neg h4, if_neg h5]

lemma on_message_state_manifest (now : ℚ) (nowNs : ℕ) (m : Message) (s : ClientState)
    (h : m.type? = some "state_manifest") :
    on_message now nowNs m s = handle_state_manifest_message m s := by
  unfold on_message
  rw [h]
  simp

lemma on_message_open_positions (now : ℚ) (nowNs : ℕ) (m : Message) (s : ClientState)
    (h : m.type? = some "open_positions_update") :
    on_message now nowNs m s = handle_open_positions_update_message m s := by
  unfold on_message
  rw [h]
  simp

lemma on_message_collateral (now : ℚ) (nowNs : ℕ) (m : Message) (s : ClientState)
    (h : m.type? = some "collateral_balance_update") :
    on_message now nowNs m s = handle_collateral_balance_message m s := by
  unfold on_message
  rw [h]
  simp

lemma on_message_book_top (now : ℚ) (nowNs : ℕ) (m : Message) (s : ClientState)
    (h : m.type? = some "book_top") :
    on_message now nowNs m s =
      if m.contract_id ∈ s.subscriptions then handle_book_top_message now m s else s := by
  unfold on_message
  rw [h]
  simp

lemma on_message_heartbeat (now : ℚ) (nowNs : ℕ) (m : Message) (s : ClientState)
    (h : m.type? = some "heartbeat") :
    on_message now nowNs m s = handle_heartbeat_message nowNs s := by
  unfold on_message
  rw [h]
  simp

end DispatchLemmas

/-- C8: a decoded frame without the `type` discriminator, or with a
discriminator outside the five recognized kinds, leaves the state cache
untouched and raises nothing (`on_message` is total and returns the input
state); each recognized discriminator dispatches to exactly its one handler. -/
theorem on_message_routing (now : ℚ) (nowNs : ℕ) (m : Message) (s : ClientState) :
    (m.type? = none → on_message now nowNs m s = s) ∧
    (∀ t : String, m.type? = some t →
      t ≠ "state_manifest" → t ≠ "open_positions_update" →
      t ≠ "collateral_balance_update" → t ≠ "book_top" → t ≠ "heartbeat" →
      on_message now nowNs m s = s) ∧
    (m.type? = some "state_manifest" →
      on_message now nowNs m s = handle_state_manifest_message m s) ∧
    (m.type? = some "open_positions_update" →
      on_message now nowNs m s = handle_open_positions_update_message m s) ∧
    (m.type? = some "collateral_balance_update" →
      on_message now nowNs m s = handle_collateral_balance_message m s) ∧
    (m.type? = some "book_top" →
      on_message now nowNs m s =
        if m.contract_id ∈ s.subscriptions then handle_book_top_message now m s else s) ∧
    (m.type? = some "heartbeat" →
      on_message now nowNs m s = handle_heartbeat_message nowNs s) := by
  refine ⟨fun h => on_message_no_type now nowNs m s h,
    fun t h h1 h2 h3 h4 h5 => on_message_unknown_type now nowNs m s t h h1 h2 h3 h4 h5,
    fun h => on_message_state_manifest now nowNs m s h,
    fun h => on_message_open_positions now nowNs m s h,
    fun h => on_message_collateral now nowNs m s h,
    fun h => on_message_book_top now nowNs m s h,
    fun h => on_message_heartbeat now nowNs m s h⟩

/-- Witness for C8 at concrete frames: a heartbeat frame goes to exactly the
heartbeat handler, and a frame with discriminator `auth_success` is silently
ignored. -/
theorem on_message_routing_witness :
    on_message 0 42 heartbeatExampleMsg initialState =
        handle_heartbeat_message 42 initialState ∧
      on_message 0 42 unknownTypeExampleMsg initialState = initialState :=
  ⟨(on_message_routing 0 42 heartbeatExampleMsg initialState).2.2.2.2.2.2 rfl,
    (on_message_routing 0 42 unknownTypeExampleMsg initialState).2.1 "auth_success" rfl
      (by decide) (by decide) (by decide) (by decide) (by decide)⟩

/-- C6: a `book_top` frame whose `contract_id` is not in the subscription set
leaves the whole state cache unchanged. -/
theorem book_top_unsubscribed_no_effect (now : ℚ) (nowNs : ℕ) (m : Message)
    (s : ClientState) (hty : m.type? = some "book_top")
    (hns : m.contract_id ∉ s.subscriptions) :
    on_message now nowNs m s = s := by
  rw [on_message_book_top now nowNs m s hty, if_neg hns]

/-- Witness for C6: the spec's example book_top frame for contract 7 applied
to the fresh (unsubscribed) client changes nothing. -/
theorem book_top_unsubscribed_no_effect_witness :
    on_message 17 0 bookTopExampleMsg initialState = initialState :=
  book_top_unsubscribed_no_effect 17 0 bookTopExampleMsg initialState rfl (by decide)

/-- C2: a `book_top` frame for a subscribed contract overwrites that
contract's book top with `[bid/100, bid_size, ask/100, ask_size]` and sets its
book timestamp to the current clock reading, which is ≥ the previous
timestamp whenever the clock has not gone backwards since that update. -/
theorem book_top_subscribed_update (now : ℚ) (nowNs : ℕ) (m : Message)
    (s : ClientState) (hty : m.type? = some "book_top")
    (hsub : m.contract_id ∈ s.subscriptions)
    (hmono : get_book_timestamp s m.contract_id ≤ now) :
    get_book_top (on_message now nowNs m s) m.contract_id =
        [m.bid / 100, m.bid_size, m.ask / 100, m.ask_size] ∧
      get_book_timestamp (on_message now nowNs m s) m.contract_id = now ∧
      get_book_timestamp s m.contract_id ≤
        get_book_timestamp (on_message now nowNs m s) m.contract_id := by
  rw [on_message_book_top now nowNs m s hty, if_pos hsub]
  refine ⟨?_, ?_, ?_⟩
  · simp [get_book_top, handle_book_top_message, updFun]
  · simp [get_book_timestamp, handle_book_top_message, updFun]
  · simpa [get_book_timestamp, handle_book_top_message, updFun] using hmono

/-- Witness for C2: the spec's example frame while subscribed to contract 7
produces `get_book_top(7) = [100.50, 3, 101.00, 2]` and stamps the book with
the clock reading 17 ≥ 0. -/
theorem book_top_subscribed_update_witness :
    get_book_top (on_message 17 0 bookTopExampleMsg (subscribe 7 initialState)) 7 =
        [100.50, 3, 101.00, 2] ∧
      get_book_timestamp (on_message 17 0 bookTopExampleMsg (subscribe 7 initialState)) 7 =
        17 := by
  obtain ⟨h1, h2, h3⟩ :=
    book_top_subscribed_update 17 0 bookTopExampleMsg (subscribe 7 initialState) rfl
      (by simp [subscribe, initialState, bookTopExampleMsg])
      (by simp [get_book_timestamp, subscribe, initialState, bookTopExampleMsg])
  simp only [bookTopExampleMsg] at h1 h2 ⊢
  refine ⟨?_, h2⟩
  rw [h1]
  norm_num

lemma collateral_foldl_apply_not_mem (l : List (String × List (String × ℚ)))
    (ab : String → List (String × Option ℚ)) (k : String)
    (hk : k ∉ l.map Prod.fst) :
    l.foldl
        (fun ab kv => updFun ab kv.1 (kv.2.map (fun sv => (sv.1, convert_units sv.1 sv.2))))
        ab k = ab k := by
  induction l generalizing ab with
  | nil => rfl
  | cons kv rest ih =>
    simp only [List.map_cons, List.mem_cons, not_or] at hk
    rw [List.foldl_cons, ih _ hk.2]
    simp [updFun, hk.1]

lemma collateral_foldl_apply_mem (l : List (String × List (String × ℚ)))
    (ab : String → List (String × Option ℚ))
    (hnd : (l.map Prod.fst).Nodup)
    (acct : String) (inner : List (String × ℚ)) (hmem : (acct, inner) ∈ l) :
    l.foldl
        (fun ab kv => updFun ab kv.1 (kv.2.map (fun sv => (sv.1, convert_units sv.1 sv.2))))
        ab acct = inner.map (fun sv => (sv.1, convert_units sv.1 sv.2)) := by
  induction l generalizing ab with
  | nil => cases hmem
  | cons kv rest ih =>
    obtain ⟨a, b⟩ := kv
    simp only [List.map_cons, List.nodup_cons] at hnd
    rcases List.mem_cons.mp hmem with heq | hrest
    · obtain ⟨rfl, rfl⟩ := Prod.mk.injEq .. ▸ heq
      rw [List.foldl_cons, collateral_foldl_apply_not_mem rest _ acct hnd.1]
      simp [updFun]
    · exact ih _ hnd.2 hrest

/-- C5: every asset value of a collateral update is scaled by the fixed
per-symbol divisor (USD: 100, BTC/CBTC: 10^8, ETH: 10^9), and for every
account key of the payload's collateral map (a JSON object, so its account
keys are duplicate-free) the converted per-symbol map overwrites that
account's balances, while accounts absent from the payload keep their
previous entry; on the spec's example the balances for `acct1` become
`{"USD": 123.45}`. -/
theorem collateral_balance_conversion (now : ℚ) (nowNs : ℕ) (s : ClientState) :
    (∀ v : ℚ, convert_units "USD" v = some (v / 100)) ∧
    (∀ v : ℚ, convert_units "BTC" v = some (v / 10 ^ 8)) ∧
    (∀ v : ℚ, convert_units "CBTC" v = some (v / 10 ^ 8)) ∧
    (∀ v : ℚ, convert_units "ETH" v = some (v / 10 ^ 9)) ∧
    (∀ m : Message, m.type? = some "collateral_balance_update" →
      (m.collateral.map Prod.fst).Nodup →
      (∀ acct : String, ∀ inner : List (String × ℚ), (acct, inner) ∈ m.collateral →
        get_account_balances (on_message now nowNs m s) acct =
          inner.map (fun sv => (sv.1, convert_units sv.1 sv.2))) ∧
      (∀ acct : String, acct ∉ m.collateral.map Prod.fst →
        get_account_balances (on_message now nowNs m s) acct =
          get_account_balances s acct)) ∧
    get_account_balances (on_message now nowNs collateralExampleMsg s) "acct1" =
      [("USD", some (123.45 : ℚ))] := by
  have hgen : ∀ m : Message, m.type? = some "collateral_balance_update" →
      (m.collateral.map Prod.fst).Nodup →
      (∀ acct : String, ∀ inner : List (String × ℚ), (acct, inner) ∈ m.collateral →
        get_account_balances (on_message now nowNs m s) acct =
          inner.map (fun sv => (sv.1, convert_units sv.1 sv.2))) ∧
      (∀ acct : String, acct ∉ m.collateral.map Prod.fst →
        get_account_balances (on_message now nowNs m s) acct =
          get_account_balances s acct) := by
    intro m hty hnd
    rw [on_message_collateral now nowNs m s hty]
    exact ⟨fun acct inner hmem =>
        collateral_foldl_apply_mem m.collateral s.accountBalances hnd acct inner hmem,
      fun acct hout =>
        collateral_foldl_apply_not_mem m.collateral s.accountBalances acct hout⟩
  refine ⟨fun v => by simp [convert_units], fun v => by simp [convert_units],
    fun v => by simp [convert_units], fun v => by simp [convert_units], hgen, ?_⟩
  obtain ⟨hmem, -⟩ := hgen collateralExampleMsg rfl (by simp [collateralExampleMsg])
  rw [hmem "acct1" [("USD", 12345)] (by simp [collateralExampleMsg])]
  simp [convert_units]
  norm_num

/-- Witness for C5: applying the example collateral frame to a fresh client
leaves `acct1 ↦ {"USD": 123.45}` in the account balances. -/
theorem collateral_balance_conversion_witness :
    get_account_balances (on_message 0 0 collateralExampleMsg initialState) "acct1" =
      [("USD", some (123.45 : ℚ))] := by
  obtain ⟨hmem, -⟩ := (collateral_balance_conversion 0 0 initialState).2.2.2.2.1
    collateralExampleMsg rfl (by simp [collateralExampleMsg])
  rw [hmem "acct1" [("USD", 12345)] (by simp [collateralExampleMsg])]
  simp [convert_units]
  norm_num

/-- C10: a collateral update containing, anywhere in its payload, an asset
symbol outside USD/BTC/CBTC/ETH neither raises nor skips that entry:
`convert_units` falls through to Python's implicit `None` and the symbol ends
up in its account's stored balances mapped to `None`, alongside the other
(converted) entries of that account. -/
theorem collateral_unknown_symbol (now : ℚ) (nowNs : ℕ) (s : ClientState)
    (m : Message) (acct : String) (inner : List (String × ℚ)) (sym : String) (v : ℚ)
    (hty : m.type? = some "collateral_balance_update")
    (hnd : (m.collateral.map Prod.fst).Nodup)
    (hacct : (acct, inner) ∈ m.collateral)
    (hsym : (sym, v) ∈ inner)
    (h1 : sym ≠ "USD") (h2 : sym ≠ "BTC") (h3 : sym ≠ "CBTC") (h4 : sym ≠ "ETH") :
    convert_units sym v = none ∧
      (sym, (none : Option ℚ)) ∈
        get_account_balances (on_message now nowNs m s) acct := by
  have hcv : convert_units sym v = none := by
    simp [convert_units, h1, h2, h3, h4]
  refine ⟨hcv, ?_⟩
  rw [on_message_collateral now nowNs m s hty]
  have hres : get_account_balances (handle_collateral_balance_message m s) acct =
      inner.map (fun sv => (sv.1, convert_units sv.1 sv.2)) :=
    collateral_foldl_apply_mem m.collateral s.accountBalances hnd acct inner hacct
  rw [hres]
  have hin : (sym, convert_units sym v) ∈
      inner.map (fun sv => (sv.1, convert_units sv.1 sv.2)) :=
    List.mem_map.mpr ⟨(sym, v), hsym, rfl⟩
  rwa [hcv] at hin

/-- Witness for C10: the symbol `DOGE`, delivered next to a USD balance in
`acct1` and a BTC balance in `acct2`, is stored under `acct1` mapped to
`None`. -/
theorem collateral_unknown_symbol_witness :
    convert_units "DOGE" 5 = none ∧
      ("DOGE", (none : Option ℚ)) ∈
        get_account_balances (on_message 0 0 unknownSymbolExampleMsg initialState) "acct1" :=
  collateral_unknown_symbol 0 0 initialState unknownSymbolExampleMsg "acct1"
    [("USD", 12345), ("DOGE", 5)] "DOGE" 5 rfl
    (by simp [unknownSymbolExampleMsg]) (by simp [unknownSymbolExampleMsg]) (by simp)
    (by decide) (by decide) (by decide) (by decide)

lemma subscribe_subscriptions_nodup (cid : ℤ) (s : ClientState)
    (h : s.subscriptions.Nodup) : (subscribe cid s).subscriptions.Nodup := by
  unfold subscribe
  by_cases hm : cid ∈ s.subscriptions
  · simpa [hm] using h
  · simpa [hm] using List.Nodup.cons hm h

lemma applySubOp_subscriptions_nodup (op : SubOp) (s : ClientState)
    (h : s.subscriptions.Nodup) : (applySubOp op s).subscriptions.Nodup := by
  cases op with
  | sub cid => exact subscribe_subscriptions_nodup cid s h
  | unsub cid =>
    unfold applySubOp unsubscribe
    by_cases hm : cid ∈ s.subscriptions
    · simpa [hm] using h.erase cid
    · simpa [hm] using h

lemma runSubOps_subscriptions_nodup (ops : List SubOp) :
    ∀ s : ClientState, s.subscriptions.Nodup → (runSubOps ops s).subscriptions.Nodup := by
  induction ops with
  | nil => intro s h; exact h
  | cons op rest ih =>
    intro s h
    exact ih (applySubOp op s) (applySubOp_subscriptions_nodup op s h)

/-- C4: across any finite sequence of subscribe/unsubscribe calls the
subscription set stays duplicate-free (`subscribe` is idempotent), and
`unsubscribe` on a non-member raises `KeyError` synchronously to the caller. -/
theorem subscription_set_invariants (ops : List SubOp) (s : ClientState)
    (h : s.subscriptions.Nodup) :
    (runSubOps ops s).subscriptions.Nodup ∧
      (∀ cid : ℤ, ∀ s' : ClientState, cid ∉ s'.subscriptions →
        unsubscribe cid s' = Except.error "KeyError") ∧
      (∀ cid : ℤ, ∀ s' : ClientState, subscribe cid (subscribe cid s') = subscribe cid s') := by
  refine ⟨runSubOps_subscriptions_nodup ops s h, ?_, ?_⟩
  · intro cid s' hm
    unfold unsubscribe
    rw [if_neg hm]
  · intro cid s'
    unfold subscribe
    by_cases hm : cid ∈ s'.subscriptions
    · simp [hm]
    · simp [hm]

/-- Witness for C4: a concrete call sequence with a duplicate subscribe keeps
the set duplicate-free, and unsubscribing the never-subscribed contract 9
fails with `KeyError`. -/
theorem subscription_set_invariants_witness :
    (runSubOps [SubOp.sub 1, SubOp.sub 1, SubOp.sub 2, SubOp.unsub 1]
        initialState).subscriptions.Nodup ∧
      unsubscribe 9 initialState = Except.error "KeyError" := by
  obtain ⟨h1, h2, h3⟩ :=
    subscription_set_invariants [SubOp.sub 1, SubOp.sub 1, SubOp.sub 2, SubOp.unsub 1]
      initialState (by simp [initialState])
  exact ⟨h1, h2 9 initialState (by simp [initialState])⟩

/-- C1 (code bug): `_connect` never registers an on-open callback with the
transport, so although `LxWebsocketClient._on_open` would reset the whole
state cache, a successful (re)establishment runs no hook at all and every
value of the previous session survives: after establishment the subscription
to contract 7 and its book top are still present, whereas the (unregistered)
hook would have cleared them. -/
theorem on_open_hook_never_registered :
    connectRegisteredCallbacks.onOpen? = none ∧
      (∀ s : ClientState, runOnOpen connectRegisteredCallbacks s = s) ∧
      (runOnOpen connectRegisteredCallbacks staleSessionState).subscriptions = [7] ∧
      get_book_top (runOnOpen connectRegisteredCallbacks staleSessionState) 7 =
        [100.50, 3, 101.00, 2] ∧
      (client_on_open staleSessionState).subscriptions = [] ∧
      get_book_top (client_on_open staleSessionState) 7 = [0, 0, 0, 0] := by
  refine ⟨rfl, fun s => rfl, ?_, ?_, rfl, rfl⟩
  · show staleSessionState.subscriptions = [7]
    simp [staleSessionState, on_message, bookTopExampleMsg, subscribe, initialState,
      handle_book_top_message]
  · show get_book_top staleSessionState 7 = [100.50, 3, 101.00, 2]
    simp [staleSessionState, on_message, bookTopExampleMsg, subscribe, initialState,
      handle_book_top_message, get_book_top, updFun]
    norm_num

/-- C3: a close callback on the current connection with a non-empty/non-zero
error code triggers exactly one reconnect sequence (discard the handle, close
it, call `connect()` once); a clean close triggers none; an error callback on
the current connection always triggers the reconnect sequence. -/
theorem close_error_reconnect_policy (h : ℕ) (code : Option ℕ) :
    (pyTruthy code = true →
      on_close_trace (some h) h code =
          [MgrEv.discardHandle h, MgrEv.closeHandle h, MgrEv.connectCall] ∧
        (on_close_trace (some h) h code).count MgrEv.connectCall = 1) ∧
      (pyTruthy code = false → on_close_trace (some h) h code = []) ∧
      on_error_trace (some h) h =
        [MgrEv.discardHandle h, MgrEv.closeHandle h, MgrEv.connectCall] := by
  have htr : on_close_trace (some h) h code = reconnectTrace (some h) h →
      on_close_trace (some h) h code =
        [MgrEv.discardHandle h, MgrEv.closeHandle h, MgrEv.connectCall] := by
    intro he
    rw [he]
    simp [reconnectTrace]
  refine ⟨fun ht => ?_, fun hf => ?_, ?_⟩
  · have he : on_close_trace (some h) h code =
        [MgrEv.discardHandle h, MgrEv.closeHandle h, MgrEv.connectCall] :=
      htr (by simp [on_close_trace, ht])
    exact ⟨he, by rw [he]; rfl⟩
  · simp [on_close_trace, hf]
  · simp [on_error_trace, reconnectTrace]

/-- Witness for C3: error code 1006 on the current handle produces the full
reconnect sequence; a clean close (no code) produces nothing. -/
theorem close_error_reconnect_policy_witness :
    on_close_trace (some 5) 5 (some 1006) =
        [MgrEv.discardHandle 5, MgrEv.closeHandle 5, MgrEv.connectCall] ∧
      on_close_trace (some 5) 5 none = [] :=
  ⟨((close_error_reconnect_policy 5 (some 1006)).1 rfl).1,
    (close_error_reconnect_policy 5 none).2.1 rfl⟩

lemma connectLoopTrace_all_fail (readies : List (Option ℚ))
    (hf : ∀ r ∈ readies, attemptSucceeds r = false) :
    connectLoopTrace readies = (readies.map (fun _ => ConnEv.attemptMade false), false) := by
  induction readies with
  | nil => rfl
  | cons r rest ih =>
    have hr : attemptSucceeds r = false := hf r (List.mem_cons_self r rest)
    have hrest : ∀ x ∈ rest, attemptSucceeds x = false :=
      fun x hx => hf x (List.mem_cons_of_mem r hx)
    simp [connectLoopTrace, hr, ih hrest]

lemma connectLoopTrace_first_success (pre : List (Option ℚ)) (r : Option ℚ)
    (post : List (Option ℚ)) (hf : ∀ x ∈ pre, attemptSucceeds x = false)
    (hs : attemptSucceeds r = true) :
    connectLoopTrace (pre ++ r :: post) =
      (pre.map (fun _ => ConnEv.attemptMade false) ++ [ConnEv.attemptMade true], true) := by
  induction pre with
  | nil => simp [connectLoopTrace, hs]
  | cons x rest ih =>
    have hx : attemptSucceeds x = false := hf x (List.mem_cons_self x rest)
    have hrest : ∀ y ∈ rest, attemptSucceeds y = false :=
      fun y hy => hf y (List.mem_cons_of_mem x hy)
    simp [connectLoopTrace, hx, ih hrest]

/-- C7: `connect()` is a no-op when a handle already exists; otherwise, with
the connection-setup lock held, it retries establishment attempts (each
succeeding exactly when the transport reports connected within the fixed
5-unit timeout) without any upper bound: after any number of failed attempts
it is still looping with the lock held, and it stops at the first success. -/
theorem connect_retry_policy (h nh : ℕ) (readies : List (Option ℚ)) :
    connect (some h) nh readies = (some h, []) ∧
      (∀ t : ℚ, attemptSucceeds (some t) = true ↔ t ≤ CONNECT_TIMEOUT_S) ∧
      ((∀ r ∈ readies, attemptSucceeds r = false) →
        connect none nh readies =
          (none, ConnEv.lockAcquire :: readies.map (fun _ => ConnEv.attemptMade false))) ∧
      (∀ pre : List (Option ℚ), ∀ r : Option ℚ, ∀ post : List (Option ℚ),
        (∀ x ∈ pre, attemptSucceeds x = false) → attemptSucceeds r = true →
        connect none nh (pre ++ r :: post) =
          (some nh,
            ConnEv.lockAcquire ::
              (pre.map (fun _ => ConnEv.attemptMade false) ++
                [ConnEv.attemptMade true, ConnEv.lockRelease]))) := by
  refine ⟨rfl, fun t => by simp [attemptSucceeds], fun hf => ?_, fun pre r post hf hs => ?_⟩
  · simp [connect, connectLoopTrace_all_fail readies hf]
  · simp [connect, connectLoopTrace_first_success pre r post hf hs]

/-- Witness for C7: with an existing handle `connect` does nothing; two
attempts whose sockets would connect only after 10 and 20 units both time out
and the loop is still running; an attempt ready after 3 units succeeds and
ends the loop. -/
theorem connect_retry_policy_witness :
    connect (some 1) 2 [some 10, some 20] = (some 1, []) ∧
      connect none 2 [some 10, some 20] =
        (none, [ConnEv.lockAcquire, ConnEv.attemptMade false, ConnEv.attemptMade false]) ∧
      connect none 2 [some 10, some 3] =
        (some 2, [ConnEv.lockAcquire, ConnEv.attemptMade false, ConnEv.attemptMade true,
          ConnEv.lockRelease]) := by
  obtain ⟨h1, h2, h3, h4⟩ := connect_retry_policy 1 2 [some 10, some 20]
  refine ⟨h1, ?_, ?_⟩
  · have := h3 (by
      intro r hr
      simp only [List.mem_cons, List.not_mem_nil, or_false] at hr
      rcases hr with hr | hr <;>
        simp [hr, attemptSucceeds, CONNECT_TIMEOUT_S] <;> norm_num)
    simpa using this
  · have := h4 [some 10] (some 3) []
      (by
        intro x hx
        simp only [List.mem_singleton] at hx
        simp [hx, attemptSucceeds, CONNECT_TIMEOUT_S]
        norm_num)
      (by simp [attemptSucceeds, CONNECT_TIMEOUT_S]; norm_num)
    simpa using this

/-- C9: a frame that is not valid JSON makes the wrapped message callback
raise (the decode error, re-wrapped by `_wrap_callback`), and the state cache
is exactly as it was — no container is mutated. -/
theorem invalid_json_raises (h : ℕ) (err : String) (now : ℚ) (nowNs : ℕ)
    (s : ClientState) :
    wrapped_on_message (some h) h now nowNs (Raw.invalid err) s =
      (s, some ("Error running websocket callback: " ++ err)) := by
  simp [wrapped_on_message]
